import Mathlib

/-!
# flow_server: the e-mail keyed connection registry of `main.go`

A shallow embedding of the two handlers of `main.go`, `handleWebhook` (the
Dialogflow webhook, `POST /dialogflow`) and `wshandler` (the websocket endpoint,
`GET /ws`), over the one piece of shared state, `connections`, a
`map[string]*myStruct`.

Conventions of the embedding.

* Go byte slices and strings are Lean strings.
* A `*websocket.Conn` is a number; a nil pointer is `none`.
* The map `connections` is a function from keys to optional entries. The code
  stores only non-nil pointers, and no two keys share a pointer, so `con[k] == nil`
  is `con k = none` and `*con[k]` is a copy of the stored record.
* Calls into libraries (`jsonpb`, `jose`, `encoding/json`) are fields of `Libs`;
  every general theorem holds for all behaviours of these libraries.
* `WriteJSON` calls are recorded in a list of `(connection, message)` pairs, in
  call order; the error `WriteJSON` returns is dropped by the code and so is not
  recorded. `fmt.Println` and `logrus` output is not modelled.
* A handler invocation is one atomic step on the registry: the interleaving of
  goroutines is not modelled.
-/

namespace FlowServer

set_option maxRecDepth 100000

/-! ## Data model -/

/-- A `*websocket.Conn`, identified by a number. -/
abbrev Conn := Nat

/-- The struct `Request` (lines 18-21): the client message of the websocket. -/
structure Request where
  Email : String
  Action : String
deriving DecidableEq, Repr

/-- The struct `myStruct` (lines 23-28), over the type `σ` of `structpb.Struct`
values. `Parameter` and `Connection` are pointers, nil being `none`. -/
structure myStruct (σ : Type) where
  Intent : String
  Parameter : Option σ
  Message : String
  Connection : Option Conn
deriving DecidableEq, Repr

/-- The struct `JwtBodyStruct` (lines 36-49). -/
structure JwtBodyStruct where
  Iss : String
  Aud : String
  Sub : String
  Email : String
  Emailverified : Bool
  Name : String
  Picture : String
  GivenName : String
  FamilyName : String
  Iat : Int
  Exp : Int
  Jti : String
deriving DecidableEq, Repr

/-- The Go zero value `JwtBodyStruct{}`. -/
def JwtBodyStruct.zero : JwtBodyStruct :=
  ⟨"", "", "", "", false, "", "", "", "", 0, 0, ""⟩

/-- What `handleWebhook` reads from an unmarshalled `dialogflow.WebhookRequest`
through its nil-safe getters (lines 70-80): an absent message or field reads as
the zero value, so an absent token is the empty string and absent parameters
are nil. -/
structure WebhookRequest (σ : Type) where
  /-- Value of `wr.GetQueryResult().GetQueryText()`. -/
  userQueryText : String
  /-- Value of `wr.GetQueryResult().GetAction()`. -/
  queryAction : String
  /-- Value of `wr.GetQueryResult().GetParameters()`. -/
  queryParameters : Option σ
  /-- Value of `wr.GetQueryResult().GetIntent().GetDisplayName()`. -/
  queryIntent : String
  /-- String value of the field `idToken` of the struct `user` of the payload. -/
  idTokenString : String
deriving DecidableEq, Repr

/-- The library calls of the two handlers. A result of a call that can fail is
paired with `true` when the call returned an error; the handlers drop or only
print these errors. -/
structure Libs (σ : Type) where
  /-- The call `unmar.Unmarshal(c.Request.Body, &wr)` of line 64 followed by the
  getters; `none` when it returns an error. -/
  Unmarshal : String → Option (WebhookRequest σ)
  /-- The call `jose.Base64Decode` of lines 82-83. -/
  Base64Decode : String → String × Bool
  /-- The call `json.Unmarshal(jwtBody, &bodyStruct)` of line 94 on the zero
  `bodyStruct`: the struct after the call. -/
  UnmarshalJwtBody : String → JwtBodyStruct × Bool
  /-- The call `json.Unmarshal(p, &request)` of line 157 on the zero `request`:
  the struct after the call. -/
  UnmarshalRequest : String → Request × Bool

/-- The map `connections`. -/
abbrev Registry (σ : Type) := String → Option (myStruct σ)

/-- The map `make(map[string]*myStruct)` of line 190. -/
def emptyRegistry {σ : Type} : Registry σ := fun _ => none

/-- The assignment `con[k] = &v`. -/
def Registry.set {σ : Type} (con : Registry σ) (k : String) (v : myStruct σ) : Registry σ :=
  fun key => if key = k then some v else con key

/-! ## `strings.Split` -/

/-- Pieces of a character list between occurrences of `sep`. -/
def splitChars (sep : Char) : List Char → List (List Char)
  | [] => [[]]
  | c :: cs =>
    if c = sep then [] :: splitChars sep cs
    else
      match splitChars sep cs with
      | [] => [[c]]
      | seg :: rest => (c :: seg) :: rest

/-- Go's `strings.Split(s, sep)` for a separator of one character: the substrings
of `s` between the separators; a string without separator gives the list of
length one holding `s`. -/
def strings.Split (s : String) (sep : Char) : List String :=
  (splitChars sep s.data).map String.mk

/-! ## The webhook handler -/

/-- How a handler invocation ends: it returns with the response status set, or
it panics (under `gin.Default()` the recovery middleware answers 500). -/
inductive Outcome where
  | status (code : Nat)
  | panicked
deriving DecidableEq, Repr

/-- Go's `http.StatusBadRequest`. -/
def StatusBadRequest : Nat := 400

/-- Go's `http.StatusOK`, the status of a gin response whose handler sets none. -/
def StatusOK : Nat := 200

/-- Effect of one invocation of `handleWebhook`. -/
structure WebhookResult (σ : Type) where
  registry : Registry σ
  writes : List (Conn × myStruct σ)
  outcome : Outcome

/-- The function `handleWebhook` (lines 56-122). The header segment `splitJWT[0]`
is decoded only to be printed on error, so only its index access is kept. -/
def handleWebhook {σ : Type} (L : Libs σ) (body : String) (con : Registry σ) :
    WebhookResult σ :=
  match L.Unmarshal body with
  | none => ⟨con, [], .status StatusBadRequest⟩
  | some wr =>
    let splitJWT := strings.Split wr.idTokenString '.'
    match splitJWT[0]?, splitJWT[1]? with
    | some _, some seg =>
      let jwtBody := (L.Base64Decode seg).1
      let bodyStruct := (L.UnmarshalJwtBody jwtBody).1
      match con bodyStruct.Email with
      | none =>
        ⟨con.set bodyStruct.Email
            { Intent := wr.queryIntent, Parameter := wr.queryParameters,
              Message := "", Connection := none },
          [], .status StatusOK⟩
      | some entry =>
        let payload : myStruct σ :=
          { entry with Intent := wr.queryIntent, Parameter := wr.queryParameters }
        match payload.Connection with
        | none => ⟨con, [], .panicked⟩
        | some conn => ⟨con, [(conn, payload)], .status StatusOK⟩
    | _, _ => ⟨con, [], .panicked⟩

/-! ## The websocket handler -/

/-- Effect of one websocket session. -/
structure SessionResult (σ : Type) where
  registry : Registry σ
  writes : List (Conn × myStruct σ)
  closed : Bool

/-- The message `myStruct{Message: "Connection successfully established"}`. -/
def established {σ : Type} : myStruct σ :=
  { Intent := "", Parameter := none,
    Message := "Connection successfully established", Connection := none }

/-- The goroutine of `wshandler` (lines 149-181): `read` is the result of
`conn.ReadMessage()`, `none` when it returns an error. -/
def wshandler.incoming {σ : Type} (L : Libs σ) (conn : Conn) (read : Option String)
    (con : Registry σ) : SessionResult σ :=
  match read with
  | none => ⟨con, [], true⟩
  | some p =>
    let request := (L.UnmarshalRequest p).1
    if request.Email.length > 0 ∧ request.Action = "Sign In" then
      match con request.Email with
      | none =>
        ⟨con.set request.Email
            { Intent := "", Parameter := none, Message := "", Connection := some conn },
          [], false⟩
      | some entry =>
        let _payload : myStruct σ := { entry with Connection := some conn }
        ⟨con, [], false⟩
    else ⟨con, [], false⟩

/-- The function `wshandler` (lines 137-183): `upgrade` is the result of
`upgrader.Upgrade`, `none` when it returns an error. -/
def wshandler {σ : Type} (L : Libs σ) (upgrade : Option Conn) (read : Option String)
    (con : Registry σ) : SessionResult σ :=
  match upgrade with
  | none => ⟨con, [], false⟩
  | some conn =>
    let r := wshandler.incoming L conn read con
    ⟨r.registry, (conn, established) :: r.writes, r.closed⟩

/-! ## Runs of the server -/

/-- One request served: a webhook call with its body, or the goroutine of a
websocket session with its connection and the result of its read. -/
inductive Event where
  | webhook (body : String)
  | session (conn : Conn) (read : Option String)
deriving DecidableEq, Repr

/-- Registry after one event. -/
def step {σ : Type} (L : Libs σ) (con : Registry σ) : Event → Registry σ
  | .webhook body => (handleWebhook L body con).registry
  | .session conn read => (wshandler.incoming L conn read con).registry

/-- Registry after a sequence of events. -/
def run {σ : Type} (L : Libs σ) (con : Registry σ) (evs : List Event) : Registry σ :=
  evs.foldl (step L) con

/-! ## Recorded library results

The examples below run the handlers on concrete requests. `recorded` holds the
results of the library calls on the inputs of those requests; it is consulted
at these inputs only. -/

/-- Parameters of the examples: a flat struct of string values. -/
abbrev Params := List (String × String)

/-- A token of two segments, the header `\x7b \x7d` and the body
`\x7b"email":"abc@x.com"\x7d` in base64url; both need no padding. -/
def tokenA : String := "eyB9.eyJlbWFpbCI6ImFiY0B4LmNvbSJ9"

/-- Envelope of the intent `greet` with the parameter `city`, for `tokenA`. -/
def greetBody : String :=
  "\x7b\"queryResult\":\x7b\"queryText\":\"hello\",\"parameters\":\x7b\"city\":\"Paris\"\x7d,\"intent\":\x7b\"displayName\":\"greet\"\x7d\x7d,\"originalDetectIntentRequest\":\x7b\"payload\":\x7b\"user\":\x7b\"idToken\":\"eyB9.eyJlbWFpbCI6ImFiY0B4LmNvbSJ9\"\x7d\x7d\x7d\x7d"

/-- Envelope of the intent `book` without parameters, for `tokenA`. -/
def bookBody : String :=
  "\x7b\"queryResult\":\x7b\"queryText\":\"a table\",\"intent\":\x7b\"displayName\":\"book\"\x7d\x7d,\"originalDetectIntentRequest\":\x7b\"payload\":\x7b\"user\":\x7b\"idToken\":\"eyB9.eyJlbWFpbCI6ImFiY0B4LmNvbSJ9\"\x7d\x7d\x7d\x7d"

/-- The empty JSON object: an envelope with no field set. -/
def emptyObjectBody : String := "\x7b\x7d"

/-- Envelope whose only field is the token `.`, two empty segments. -/
def dotBody : String :=
  "\x7b\"originalDetectIntentRequest\":\x7b\"payload\":\x7b\"user\":\x7b\"idToken\":\".\"\x7d\x7d\x7d\x7d"

/-- The sign-in message of `abc@x.com`. -/
def signInMsg : String := "\x7b\"email\":\"abc@x.com\",\"action\":\"Sign In\"\x7d"

/-- The sign-in message of `abc@x.com` followed by a second key `email` whose
value is a number. `json.Unmarshal` sets both fields from the first two keys,
cannot store the number in the string field `Email`, leaves the field as it is,
and returns an `UnmarshalTypeError`. -/
def duplicateKeyMsg : String :=
  "\x7b\"email\":\"abc@x.com\",\"action\":\"Sign In\",\"email\":5\x7d"

/-- Results of the library calls on the inputs above. The empty body and the
empty JWT body are not JSON, so unmarshalling them fails and leaves the zero
value; the empty segment decodes to no bytes. -/
def recorded : Libs Params where
  Unmarshal := fun body =>
    if body = greetBody then some ⟨"hello", "", some [("city", "Paris")], "greet", tokenA⟩
    else if body = bookBody then some ⟨"a table", "", none, "book", tokenA⟩
    else if body = emptyObjectBody then some ⟨"", "", none, "", ""⟩
    else if body = dotBody then some ⟨"", "", none, "", "."⟩
    else none
  Base64Decode := fun seg =>
    if seg = "eyJlbWFpbCI6ImFiY0B4LmNvbSJ9" then ("\x7b\"email\":\"abc@x.com\"\x7d", false)
    else if seg = "eyB9" then ("\x7b \x7d", false)
    else if seg = "" then ("", false)
    else ("", true)
  UnmarshalJwtBody := fun jwtBody =>
    if jwtBody = "\x7b\"email\":\"abc@x.com\"\x7d" then
      ({ JwtBodyStruct.zero with Email := "abc@x.com" }, false)
    else if jwtBody = "\x7b \x7d" then (JwtBodyStruct.zero, false)
    else (JwtBodyStruct.zero, true)
  UnmarshalRequest := fun p =>
    if p = signInMsg then (⟨"abc@x.com", "Sign In"⟩, false)
    else if p = duplicateKeyMsg then (⟨"abc@x.com", "Sign In"⟩, true)
    else (⟨"", ""⟩, true)

/-- Registry after the webhook received `greetBody` on the empty registry. -/
def afterGreet : Registry Params :=
  run recorded emptyRegistry [.webhook greetBody]

/-- Registry after `abc@x.com` signed in on connection 1 on the empty registry. -/
def afterSignIn : Registry Params :=
  run recorded emptyRegistry [.session 1 (some signInMsg)]

/-! ## Lemmas on `strings.Split` -/

theorem splitChars_length (sep : Char) (cs : List Char) :
    (splitChars sep cs).length = cs.count sep + 1 := by
  induction cs with
  | nil => simp [splitChars]
  | cons c cs ih =>
    unfold splitChars
    by_cases h : c = sep
    · subst h
      simp [ih]
    · have hne : (c == sep) = false := by simpa using h
      rw [if_neg h, List.count_cons, hne]
      cases hsp : splitChars sep cs with
      | nil => rw [hsp] at ih; simp at ih
      | cons seg rest =>
        rw [hsp] at ih
        simpa using ih

theorem Split_length (s : String) (sep : Char) :
    (strings.Split s sep).length = s.data.count sep + 1 := by
  simp [strings.Split, splitChars_length]

/-! ## Lemmas on the handlers -/

theorem length_pos_of_ne_empty (s : String) (h : s ≠ "") : s.length > 0 := by
  cases s with
  | mk l =>
    cases l with
    | nil => exact absurd rfl h
    | cons c cs => simp [String.length]

theorem length_pos_iff (s : String) : s.length > 0 ↔ s ≠ "" := by
  constructor
  · intro h he
    subst he
    simp at h
  · exact length_pos_of_ne_empty s

/-- Unfolding of `handleWebhook` on an envelope whose token has a second segment. -/
theorem handleWebhook_of_segment {σ : Type} (L : Libs σ) (body : String) (con : Registry σ)
    (wr : WebhookRequest σ) (seg : String) (hu : L.Unmarshal body = some wr)
    (hs : (strings.Split wr.idTokenString '.')[1]? = some seg) :
    handleWebhook L body con =
      match con (L.UnmarshalJwtBody (L.Base64Decode seg).1).1.Email with
      | none =>
        ⟨con.set (L.UnmarshalJwtBody (L.Base64Decode seg).1).1.Email
            ⟨wr.queryIntent, wr.queryParameters, "", none⟩, [], .status StatusOK⟩
      | some entry =>
        match entry.Connection with
        | none => ⟨con, [], .panicked⟩
        | some conn =>
          ⟨con, [(conn, ⟨wr.queryIntent, wr.queryParameters, entry.Message, some conn⟩)],
            .status StatusOK⟩ := by
  unfold handleWebhook
  cases hsp : strings.Split wr.idTokenString '.' with
  | nil => rw [hsp] at hs; simp at hs
  | cons seg0 rest =>
    rw [hsp] at hs
    cases rest with
    | nil => simp at hs
    | cons seg1 rest1 =>
      simp at hs
      subst hs
      simp only [hu, hsp, List.getElem?_cons_zero, List.getElem?_cons_succ]
      cases hc : con (L.UnmarshalJwtBody (L.Base64Decode seg1).1).1.Email with
      | none => rfl
      | some entry =>
        cases hcn : entry.Connection with
        | none => simp [hcn]
        | some conn => simp [hcn]

/-- The goroutine of `wshandler` writes to no connection. -/
theorem incoming_writes {σ : Type} (L : Libs σ) (conn : Conn) (read : Option String)
    (con : Registry σ) : (wshandler.incoming L conn read con).writes = [] := by
  unfold wshandler.incoming
  cases read with
  | none => rfl
  | some p =>
    simp only []
    split
    · split <;> rfl
    · rfl

/-- Unfolding of the goroutine of `wshandler` on a message it takes as a sign-in. -/
theorem incoming_of_signIn {σ : Type} (L : Libs σ) (conn : Conn) (p : String)
    (con : Registry σ) (id : String) (hreq : (L.UnmarshalRequest p).1 = ⟨id, "Sign In"⟩)
    (hid : id ≠ "") :
    (wshandler.incoming L conn (some p) con).registry =
      match con id with
      | none => con.set id ⟨"", none, "", some conn⟩
      | some _ => con := by
  have hpos : id.length > 0 := length_pos_of_ne_empty id hid
  unfold wshandler.incoming
  simp only [hreq, hpos, and_self, if_true]
  cases con id <;> rfl

/-- C1 (as amended): for every identity with no registry entry, after
`handleWebhook` ingested one or more events for that identity, a sign-in with
that identity on a new connection pushes no event: the goroutine that handles
the sign-in message writes to no connection, and the only message `wshandler`
writes to the new connection is the acknowledgement it sends at upgrade. -/
theorem signIn_after_ingest_pushes_nothing {σ : Type} (L : Libs σ) (con : Registry σ)
    (id : String) (bodies : List String) (conn : Conn) (p : String)
    (_hnew : con id = none) (_hne : bodies ≠ [])
    (_hing : ∀ body ∈ bodies, ∃ wr seg, L.Unmarshal body = some wr ∧
      (strings.Split wr.idTokenString '.')[1]? = some seg ∧
      (L.UnmarshalJwtBody (L.Base64Decode seg).1).1.Email = id)
    (_hreq : (L.UnmarshalRequest p).1 = ⟨id, "Sign In"⟩) (_hid : id ≠ "") :
    (wshandler.incoming L conn (some p)
        (run L con (bodies.map Event.webhook))).writes = [] ∧
    (wshandler L (some conn) (some p)
        (run L con (bodies.map Event.webhook))).writes = [(conn, established)] := by
  refine ⟨incoming_writes _ _ _ _, ?_⟩
  simp [wshandler, incoming_writes]

/-- Witness of C1 as amended: `abc@x.com` signs in on connection 1 after the
events `greet` and `book` were ingested on the empty registry. -/
theorem signIn_after_ingest_pushes_nothing_witness :
    (wshandler.incoming recorded 1 (some signInMsg)
        (run recorded emptyRegistry ([greetBody, bookBody].map Event.webhook))).writes = [] ∧
    (wshandler recorded (some 1) (some signInMsg)
        (run recorded emptyRegistry ([greetBody, bookBody].map Event.webhook))).writes =
      [(1, established)] :=
  signIn_after_ingest_pushes_nothing recorded emptyRegistry "abc@x.com" [greetBody, bookBody] 1
    signInMsg (by decide) (by decide)
    (by
      intro body hb
      simp only [List.mem_cons, List.mem_singleton, List.not_mem_nil, or_false] at hb
      rcases hb with hb | hb
      · subst hb
        exact ⟨⟨"hello", "", some [("city", "Paris")], "greet", tokenA⟩,
          "eyJlbWFpbCI6ImFiY0B4LmNvbSJ9", by decide, by decide, by decide⟩
      · subst hb
        exact ⟨⟨"a table", "", none, "book", tokenA⟩,
          "eyJlbWFpbCI6ImFiY0B4LmNvbSJ9", by decide, by decide, by decide⟩)
    (by decide) (by decide)

/-- C1 as stated fails: on the empty registry the event `greet` is ingested for
`abc@x.com`, which then signs in on connection 1. The entry holds the event, the
sign-in is accepted, and yet the sign-in step writes nothing; the session as a
whole writes only the acknowledgement, which carries no intent. -/
theorem ingest_then_signIn_counterexample :
    (emptyRegistry : Registry Params) "abc@x.com" = none ∧
    afterGreet "abc@x.com" = some ⟨"greet", some [("city", "Paris")], "", none⟩ ∧
    (recorded.UnmarshalRequest signInMsg).1 = ⟨"abc@x.com", "Sign In"⟩ ∧
    (wshandler.incoming recorded 1 (some signInMsg) afterGreet).writes = [] ∧
    (wshandler recorded (some 1) (some signInMsg) afterGreet).writes = [(1, established)] ∧
    (established : myStruct Params).Intent ≠ "greet" := by
  refine ⟨by decide, by decide, by decide, by decide, by decide, by decide⟩

/-- C2: for every identity with no registry entry, after a client signed in
with it on connection `conn`, a `handleWebhook` call whose token decodes to that
identity writes exactly one message, to `conn`, carrying the intent name and the
parameters of the event; the call completes with status 200. -/
theorem signIn_then_ingest_delivers {σ : Type} (L : Libs σ) (con : Registry σ)
    (id : String) (conn : Conn) (p body : String) (wr : WebhookRequest σ) (seg : String)
    (hnew : con id = none)
    (hreq : (L.UnmarshalRequest p).1 = ⟨id, "Sign In"⟩) (hid : id ≠ "")
    (hu : L.Unmarshal body = some wr)
    (hs : (strings.Split wr.idTokenString '.')[1]? = some seg)
    (he : (L.UnmarshalJwtBody (L.Base64Decode seg).1).1.Email = id) :
    (handleWebhook L body (wshandler.incoming L conn (some p) con).registry).writes =
      [(conn, ⟨wr.queryIntent, wr.queryParameters, "", some conn⟩)] ∧
    (handleWebhook L body (wshandler.incoming L conn (some p) con).registry).outcome =
      .status StatusOK := by
  rw [incoming_of_signIn L conn p con id hreq hid, hnew,
    handleWebhook_of_segment L body _ wr seg hu hs, he]
  simp [Registry.set]

/-- Witness of C2: `abc@x.com` signs in on connection 1 on the empty registry,
then the event `greet` arrives. -/
theorem signIn_then_ingest_delivers_witness :
    (handleWebhook recorded greetBody
        (wshandler.incoming recorded 1 (some signInMsg) emptyRegistry).registry).writes =
      [(1, ⟨"greet", some [("city", "Paris")], "", some 1⟩)] ∧
    (handleWebhook recorded greetBody
        (wshandler.incoming recorded 1 (some signInMsg) emptyRegistry).registry).outcome =
      .status StatusOK :=
  signIn_then_ingest_delivers recorded emptyRegistry "abc@x.com" 1 signInMsg greetBody
    ⟨"hello", "", some [("city", "Paris")], "greet", tokenA⟩ "eyJlbWFpbCI6ImFiY0B4LmNvbSJ9"
    (by decide) (by decide) (by decide) (by decide) (by decide) (by decide)

/-- C3 fails on the code: on the empty registry `abc@x.com` signs in on connection
1 and then on connection 2. The entry still holds connection 1, and the event
`greet` ingested afterwards is written to connection 1 and not to connection 2. -/
theorem second_signIn_is_not_attached :
    (run recorded emptyRegistry
        [.session 1 (some signInMsg), .session 2 (some signInMsg)]) "abc@x.com" =
      some ⟨"", none, "", some 1⟩ ∧
    (handleWebhook recorded greetBody
        (run recorded emptyRegistry
          [.session 1 (some signInMsg), .session 2 (some signInMsg)])).writes =
      [(1, ⟨"greet", some [("city", "Paris")], "", some 1⟩)] := by
  refine ⟨by decide, by decide⟩

/-- C4 fails on the code: on the empty registry the events `greet` and then
`book` are ingested for `abc@x.com`. The second call panics on the nil connection
of the entry, and the entry still stores `greet`. After a sign-in the entry
stores no event at all once `greet` was ingested and delivered. -/
theorem later_event_is_not_stored :
    (run recorded emptyRegistry [.webhook greetBody, .webhook bookBody]) "abc@x.com" =
      some ⟨"greet", some [("city", "Paris")], "", none⟩ ∧
    (handleWebhook recorded bookBody afterGreet).outcome = .panicked ∧
    (handleWebhook recorded greetBody afterSignIn).registry "abc@x.com" =
      some ⟨"", none, "", some 1⟩ := by
  refine ⟨by decide, by decide, by decide⟩

/-- C5: for every registry and every request body that fails to unmarshal,
`handleWebhook` sets the status 400, writes to no connection and returns the
registry it was given. -/
theorem malformed_envelope_rejected {σ : Type} (L : Libs σ) (con : Registry σ)
    (body : String) (h : L.Unmarshal body = none) :
    (handleWebhook L body con).outcome = .status 400 ∧
    (handleWebhook L body con).writes = [] ∧
    (handleWebhook L body con).registry = con := by
  unfold handleWebhook
  rw [h]
  exact ⟨rfl, rfl, rfl⟩

/-- Witness of C5: the empty request body, on the registry that holds `greet`. -/
theorem malformed_envelope_rejected_witness :
    (handleWebhook recorded "" afterGreet).outcome = .status 400 ∧
    (handleWebhook recorded "" afterGreet).writes = [] ∧
    (handleWebhook recorded "" afterGreet).registry = afterGreet :=
  malformed_envelope_rejected recorded afterGreet "" (by decide)

/-- C6 fails on the code: the envelope `\x7b\x7d` unmarshals, its token is empty,
and the access to the second segment panics; and an envelope for an identity
whose entry has no connection panics on the nil connection. In both runs
nothing is written and the call does not complete with status 200. -/
theorem webhook_panics :
    recorded.Unmarshal emptyObjectBody = some ⟨"", "", none, "", ""⟩ ∧
    (handleWebhook recorded emptyObjectBody emptyRegistry).outcome = .panicked ∧
    afterGreet "abc@x.com" = some ⟨"greet", some [("city", "Paris")], "", none⟩ ∧
    (handleWebhook recorded greetBody afterGreet).outcome = .panicked ∧
    (handleWebhook recorded greetBody afterGreet).writes = [] := by
  refine ⟨by decide, by decide, by decide, by decide, by decide⟩

/-- C8 fails on the code: the envelope whose token is `.` has an empty body
segment, which decodes to no e-mail; `handleWebhook` creates the entry of the
empty identity on the empty registry. -/
theorem empty_identity_is_stored :
    (strings.Split "." '.')[1]? = some "" ∧
    (recorded.UnmarshalJwtBody (recorded.Base64Decode "").1).1.Email = "" ∧
    (run recorded emptyRegistry [.webhook dotBody]) "" = some ⟨"", none, "", none⟩ := by
  refine ⟨by decide, by decide, by decide⟩

/-- C9: in every registry that holds an entry for an identity, a `handleWebhook`
call whose token decodes to that identity and a sign-in message of that
identity both return the registry they were given, so the entry is the same
after as before. -/
theorem entries_are_write_once {σ : Type} (L : Libs σ) (con : Registry σ) (id : String)
    (h : con id ≠ none) :
    (∀ body wr seg, L.Unmarshal body = some wr →
      (strings.Split wr.idTokenString '.')[1]? = some seg →
      (L.UnmarshalJwtBody (L.Base64Decode seg).1).1.Email = id →
      (handleWebhook L body con).registry = con) ∧
    (∀ conn p, (L.UnmarshalRequest p).1.Email = id →
      (wshandler.incoming L conn (some p) con).registry = con ∧
      (wshandler L (some conn) (some p) con).registry = con) := by
  obtain ⟨entry, hentry⟩ := Option.ne_none_iff_exists'.mp h
  constructor
  · intro body wr seg hu hs he
    rw [handleWebhook_of_segment L body con wr seg hu hs, he, hentry]
    cases hcn : entry.Connection <;> simp [hcn]
  · intro conn p hp
    have hinc : (wshandler.incoming L conn (some p) con).registry = con := by
      unfold wshandler.incoming
      simp only [hp]
      split
      · rw [hentry]
      · rfl
    exact ⟨hinc, by simpa [wshandler] using hinc⟩

/-- Witness of C9: the registry that holds `greet` for `abc@x.com`. -/
theorem entries_are_write_once_witness :
    (∀ body wr seg, recorded.Unmarshal body = some wr →
      (strings.Split wr.idTokenString '.')[1]? = some seg →
      (recorded.UnmarshalJwtBody (recorded.Base64Decode seg).1).1.Email = "abc@x.com" →
      (handleWebhook recorded body afterGreet).registry = afterGreet) ∧
    (∀ conn p, (recorded.UnmarshalRequest p).1.Email = "abc@x.com" →
      (wshandler.incoming recorded conn (some p) afterGreet).registry = afterGreet ∧
      (wshandler recorded (some conn) (some p) afterGreet).registry = afterGreet) :=
  entries_are_write_once recorded afterGreet "abc@x.com" (by decide)

/-- C10: for every token, `strings.Split` on `.` gives a non-empty list, so the
segment of index 0 exists, and the segment of index 1 exists if and only if the
token contains a `.`. -/
theorem token_segment_indexing (token : String) :
    strings.Split token '.' ≠ [] ∧
    ((strings.Split token '.')[0]?).isSome = true ∧
    (((strings.Split token '.')[1]?).isSome = true ↔ '.' ∈ token.data) := by
  have hlen := Split_length token '.'
  refine ⟨?_, ?_, ?_⟩
  · intro hnil
    rw [hnil] at hlen
    simp at hlen
  · rw [Option.isSome_iff_exists]
    exact ⟨_, List.getElem?_eq_getElem (by omega)⟩
  · rw [← List.count_pos_iff]
    constructor
    · intro hsome
      rw [Option.isSome_iff_exists] at hsome
      obtain ⟨x, hx⟩ := hsome
      have hlt := (List.getElem?_eq_some.mp hx).1
      omega
    · intro hpos
      rw [Option.isSome_iff_exists]
      exact ⟨_, List.getElem?_eq_getElem (by omega)⟩

end FlowServer
